import Mathlib

/-!
Shallow embedding of `src/main.py` (JV Report Telegram Bot): a poll-loop
Telegram bot that collects photos into a pending batch, and on a `/siteid`
command compresses them, assembles a one-page-per-photo PDF, and emails it.

Modelling conventions:
* File-system and network facts that the code only observes (file sizes,
  download success, SMTP success, decode success, timestamps, message ids)
  are passed in as explicit oracle parameters or record fields.
* Python float arithmetic on image dimensions is modelled as exact
  arithmetic: `int(h * (M / w))` becomes natural floor division `h * M / w`,
  and the page-layout floats become rationals.
* Side effects (Telegram sends, SMTP, log appends, file writes/renames)
  are reified as an `Effect` list returned by each function.
* A Python exception that escapes a function is an `Except.error`.
-/

/-- Ambient configuration constants of `main.py` (lines 66-82). -/
def SMTP_SERVER : String := "smtp.gmail.com"

def SMTP_PORT : Nat := 587

def DOWNLOAD_DIR : String := "./telegram_photos"

def PDF_OUTPUT_DIR : String := "./pdfs"

def ARCHIVE_DIR : String := "./archive"

def LOG_FILE : String := "./submissions_log.txt"

def MAX_IMAGE_SIZE_MB : Nat := 2

def COMPRESSION_QUALITY : Nat := 85

def MAX_IMAGE_DIMENSION : Nat := 2048

/-- The seven (identical) mail recipients (`RECIPIENTS`, lines 41-49). -/
def RECIPIENTS : List String :=
  [ "workspaceegd@gmail.com", "workspaceegd@gmail.com", "workspaceegd@gmail.com",
    "workspaceegd@gmail.com", "workspaceegd@gmail.com", "workspaceegd@gmail.com",
    "workspaceegd@gmail.com" ]

/-- `EMAIL_SUBJECT.format(site_id=...)` (line 52). -/
def EMAIL_SUBJECT (site_id : String) : String :=
  "Submission of Joint Visit (JV) Documents – Indus ID: " ++ site_id

/-- `EMAIL_BODY.format(site_id=...)` (lines 53-63). -/
def EMAIL_BODY (site_id : String) : String :=
  "Dear Sir,\n\nPlease find attached the Joint Visit (JV) documents for your reference. The site details and photographs are attached as a single PDF.\n\nIndus ID: " ++
    site_id ++
    "\n\nBest regards,\nSatendra Kumar Dubey\nMobile: +91 98931 00138\nEmail: workspaceegd@gmail.com\n"

/-- `compress_image(image_path, max_size_mb, quality, max_dimension)`
(lines 145-170), restricted to its observable outcome on the image file:
the pixel dimensions the file has afterwards, and whether `img.save`
overwrote it.

Oracles: `decodeOk` is whether the `try` body runs without an exception
(`Image.open` and friends); `sizeOverMax` is the observed truth value of
`file_size_mb > max_size_mb`.  On an exception the handler logs and returns
`False`, leaving the file unchanged.  The resize computes
`int(height * (max_dimension / width))` (resp. the symmetric form), modelled
as exact floor division. -/
def compress_image (decodeOk sizeOverMax : Bool) (w h max_dimension : Nat) :
    (Nat × Nat) × Bool :=
  if ¬ decodeOk then ((w, h), false)
  else
    let newDims :=
      if max_dimension < w ∨ max_dimension < h then
        if h < w then (max_dimension, h * max_dimension / w)
        else (w * max_dimension / h, max_dimension)
      else (w, h)
    if sizeOverMax ∨ max_dimension < w ∨ max_dimension < h then (newDims, true)
    else ((w, h), false)

/-- The resized dimensions stand in the exact floor-rounded proportion to
the originals: one axis is scaled exactly and the other is the floor of the
proportional value (aspect ratio preserved up to integer rounding). -/
def aspectPreserved (w h nw nh : Nat) : Prop :=
  (nh * w ≤ h * nw ∧ h * nw < (nh + 1) * w) ∨
  (nw * h ≤ w * nh ∧ w * nh < (nw + 1) * h)

lemma compress_image_oversized (sizeOverMax : Bool) (w h M : Nat)
    (hover : M < w ∨ M < h) :
    ((compress_image true sizeOverMax w h M).1.1 ≤ M ∧
      (compress_image true sizeOverMax w h M).1.2 ≤ M) ∧
    aspectPreserved w h (compress_image true sizeOverMax w h M).1.1
      (compress_image true sizeOverMax w h M).1.2 ∧
    (compress_image true sizeOverMax w h M).2 = true := by
  have hcond : (M < w ∨ M < h) := hover
  by_cases hwh : h < w
  · have heq : compress_image true sizeOverMax w h M = ((M, h * M / w), true) := by
      simp [compress_image, hcond, hwh]
    have hw : 0 < w := by
      rcases hover with hx | hx
      · exact Nat.lt_of_le_of_lt (Nat.zero_le _) hx
      · exact lt_trans (Nat.lt_of_le_of_lt (Nat.zero_le _) hx) hwh
    have hdivle : h * M / w ≤ M := by
      calc h * M / w ≤ w * M / w := Nat.div_le_div_right (Nat.mul_le_mul_right _ (le_of_lt hwh))
        _ = M := Nat.mul_div_cancel_left M hw
    rw [heq]
    refine ⟨⟨le_refl M, hdivle⟩, ?_, rfl⟩
    left
    exact ⟨Nat.div_mul_le_self (h * M) w,
      (Nat.div_lt_iff_lt_mul hw).mp (Nat.lt_succ_self _)⟩
  · have heq : compress_image true sizeOverMax w h M = ((w * M / h, M), true) := by
      simp [compress_image, hcond, hwh]
    have hwle : w ≤ h := le_of_not_lt hwh
    have hh : 0 < h := by
      rcases hover with hx | hx
      · exact Nat.lt_of_le_of_lt (Nat.zero_le _) (Nat.lt_of_lt_of_le hx hwle)
      · exact Nat.lt_of_le_of_lt (Nat.zero_le _) hx
    have hdivle : w * M / h ≤ M := by
      calc w * M / h ≤ h * M / h := Nat.div_le_div_right (Nat.mul_le_mul_right _ hwle)
        _ = M := Nat.mul_div_cancel_left M hh
    rw [heq]
    refine ⟨⟨hdivle, le_refl M⟩, ?_, rfl⟩
    right
    exact ⟨Nat.div_mul_le_self (w * M) h,
      (Nat.div_lt_iff_lt_mul hh).mp (Nat.lt_succ_self _)⟩

/-- C8: For every successfully decoded image with at least one dimension
exceeding the configured maximum (2048 px), normalization produces an image
whose width and height are both at most the maximum, with the original
aspect ratio preserved up to integer rounding (and the resized image is in
fact saved back to the file). -/
theorem compress_image_oversized_within_bounds (sizeOverMax : Bool) (w h : Nat)
    (hover : MAX_IMAGE_DIMENSION < w ∨ MAX_IMAGE_DIMENSION < h) :
    ((compress_image true sizeOverMax w h MAX_IMAGE_DIMENSION).1.1 ≤ MAX_IMAGE_DIMENSION ∧
      (compress_image true sizeOverMax w h MAX_IMAGE_DIMENSION).1.2 ≤ MAX_IMAGE_DIMENSION) ∧
    aspectPreserved w h (compress_image true sizeOverMax w h MAX_IMAGE_DIMENSION).1.1
      (compress_image true sizeOverMax w h MAX_IMAGE_DIMENSION).1.2 ∧
    (compress_image true sizeOverMax w h MAX_IMAGE_DIMENSION).2 = true :=
  compress_image_oversized sizeOverMax w h MAX_IMAGE_DIMENSION hover

/-- C8 witness: a 4096 x 1000 image is normalized to 2048 x 500. -/
theorem compress_image_oversized_within_bounds_witness :
    (MAX_IMAGE_DIMENSION < 4096 ∨ MAX_IMAGE_DIMENSION < 1000) ∧
    (((compress_image true false 4096 1000 MAX_IMAGE_DIMENSION).1.1 ≤ MAX_IMAGE_DIMENSION ∧
      (compress_image true false 4096 1000 MAX_IMAGE_DIMENSION).1.2 ≤ MAX_IMAGE_DIMENSION) ∧
    aspectPreserved 4096 1000 (compress_image true false 4096 1000 MAX_IMAGE_DIMENSION).1.1
      (compress_image true false 4096 1000 MAX_IMAGE_DIMENSION).1.2 ∧
    (compress_image true false 4096 1000 MAX_IMAGE_DIMENSION).2 = true) :=
  ⟨by decide,
    compress_image_oversized_within_bounds false 4096 1000 (by decide)⟩

/-- C9: For every successfully decoded image whose width and height are both
within the configured maximum and whose encoded size is within the configured
maximum, normalization leaves the pixel dimensions unchanged (indeed it does
not save the file at all). -/
theorem compress_image_within_bounds_unchanged (decodeOk : Bool) (w h : Nat)
    (hw : w ≤ MAX_IMAGE_DIMENSION) (hh : h ≤ MAX_IMAGE_DIMENSION) :
    compress_image decodeOk false w h MAX_IMAGE_DIMENSION = ((w, h), false) := by
  unfold compress_image
  have hnot : ¬ (MAX_IMAGE_DIMENSION < w ∨ MAX_IMAGE_DIMENSION < h) := by
    push_neg
    exact ⟨hw, hh⟩
  cases decodeOk with
  | false => simp
  | true => simp [hnot]

/-- C9 witness: a 1024 x 768 image within the size bound is untouched. -/
theorem compress_image_within_bounds_unchanged_witness :
    (1024 ≤ MAX_IMAGE_DIMENSION ∧ 768 ≤ MAX_IMAGE_DIMENSION) ∧
    compress_image true false 1024 768 MAX_IMAGE_DIMENSION = ((1024, 768), false) :=
  ⟨by decide,
    compress_image_within_bounds_unchanged true 1024 768 (by decide) (by decide)⟩

/-- Python truthiness of an `os.getenv` result: `not x` is `True` exactly
when the variable is unset (`None`) or set to the empty string. -/
def truthy : Option String → Bool
  | none => false
  | some s => ¬ s.isEmpty

/-- The resolved start-up configuration values (lines 27-38). -/
structure Config where
  TELEGRAM_BOT_TOKEN : String
  YOUR_CHAT_ID : String
  SENDER_EMAIL : String
  SENDER_PASSWORD : String
  deriving Repr, DecidableEq

/-- The module-level configuration block of `main.py` (lines 27-38), as a
function of the process environment.  `.error` is a `ValueError` raised
at module load (the process does not start); `.ok` is the resolved
configuration.  Note `SENDER_EMAIL` is read with a default
(`os.getenv("SENDER_EMAIL", "workspaceegd@gmail.com")`), and no other
environment variable (in particular no serving port) is read anywhere in
the program. -/
def configuration (env : String → Option String) : Except String Config :=
  let token := env "TELEGRAM_BOT_TOKEN"
  let chat := env "YOUR_CHAT_ID"
  if ¬ truthy token ∨ ¬ truthy chat then
    .error "Missing TELEGRAM_BOT_TOKEN or YOUR_CHAT_ID in ENV"
  else
    let senderEmail := (env "SENDER_EMAIL").getD "workspaceegd@gmail.com"
    let pw := env "SENDER_PASSWORD"
    if ¬ truthy pw then
      .error "Missing SENDER_PASSWORD in ENV"
    else
      .ok ⟨token.getD "", chat.getD "", senderEmail, pw.getD ""⟩

/-- An environment providing every value except `SENDER_EMAIL` (and, like
any environment, no serving port, which the program never reads). -/
def envNoSenderEmail : String → Option String := fun k =>
  if k = "TELEGRAM_BOT_TOKEN" then some "token123"
  else if k = "YOUR_CHAT_ID" then some "42"
  else if k = "SENDER_PASSWORD" then some "pw"
  else none

/-- C7 counterexample: with the mail sender address absent from the
environment (and no serving port set), start-up does not raise — the
configuration resolves with the hard-coded default sender address, so the
claim that absence of the mail sender address (or of a serving port) makes
the process raise is false. -/
theorem configuration_missing_sender_email_still_starts :
    configuration envNoSenderEmail =
      .ok ⟨"token123", "42", "workspaceegd@gmail.com", "pw"⟩ := rfl

/-- C7 amended: the required environment values are exactly the transport
auth token, the authorized sender identity, and the mail credential — if any
of these is absent (or empty), the process raises at start-up and does not
start.  The mail sender address falls back to a hard-coded default, and no
serving port is read. -/
theorem configuration_missing_required_raises (env : String → Option String)
    (hmiss : truthy (env "TELEGRAM_BOT_TOKEN") = false ∨
      truthy (env "YOUR_CHAT_ID") = false ∨
      truthy (env "SENDER_PASSWORD") = false) :
    ∃ e, configuration env = .error e := by
  unfold configuration
  rcases hmiss with hx | hx | hx
  · exact ⟨_, by rw [if_pos (Or.inl (by simp [hx]))]⟩
  · exact ⟨_, by rw [if_pos (Or.inr (by simp [hx]))]⟩
  · by_cases hfirst : ¬ truthy (env "TELEGRAM_BOT_TOKEN") ∨ ¬ truthy (env "YOUR_CHAT_ID")
    · exact ⟨_, by rw [if_pos hfirst]⟩
    · exact ⟨_, by rw [if_neg hfirst, if_pos (by simp [hx])]⟩

/-- C7 amended witness: an environment lacking only `SENDER_PASSWORD`
makes start-up raise. -/
theorem configuration_missing_required_raises_witness :
    (truthy ((fun k =>
        if k = "TELEGRAM_BOT_TOKEN" then some "t"
        else if k = "YOUR_CHAT_ID" then some "42" else none) "TELEGRAM_BOT_TOKEN") = false ∨
      truthy ((fun k =>
        if k = "TELEGRAM_BOT_TOKEN" then some "t"
        else if k = "YOUR_CHAT_ID" then some "42" else none) "YOUR_CHAT_ID") = false ∨
      truthy ((fun k =>
        if k = "TELEGRAM_BOT_TOKEN" then some "t"
        else if k = "YOUR_CHAT_ID" then some "42" else none) "SENDER_PASSWORD") = false) ∧
    ∃ e, configuration (fun k =>
        if k = "TELEGRAM_BOT_TOKEN" then some "t"
        else if k = "YOUR_CHAT_ID" then some "42" else none) = .error e :=
  ⟨by decide,
    configuration_missing_required_raises _ (by decide)⟩

/-- A downloaded photo file, together with the external facts the code
observes about it: its pixel dimensions on disk, whether its byte size
exceeds `MAX_IMAGE_SIZE_MB` (`sizeOverMax`), whether `compress_image`'s
`try` body runs without an exception (`decodeOk`), whether `Image.open`
succeeds in the page-building loop (`openOk`; `False` means that loop
raises), and whether the file still exists at archive time (`onDisk`). -/
structure Img where
  path : String
  w : Nat
  h : Nat
  sizeOverMax : Bool
  decodeOk : Bool
  openOk : Bool
  onDisk : Bool
  deriving Repr, DecidableEq

/-- Dimensions of the image file after the compression pass of
`create_pdf_from_images` (line 184) has run `compress_image` on it. -/
def dimsAfterCompress (img : Img) : Nat × Nat :=
  (compress_image img.decodeOk img.sizeOverMax img.w img.h MAX_IMAGE_DIMENSION).1

/-- One page of the output PDF (lines 191-207): the source image path and
the placement geometry computed for it.  Floats become exact rationals. -/
structure Page where
  src : String
  x : Rat
  y : Rat
  w : Rat
  h : Rat
  deriving Repr, DecidableEq

/-- `reportlab.lib.pagesizes.A4` = (210 mm, 297 mm) in points, exactly. -/
def A4 : Rat × Rat := (75600 / 127, 106920 / 127)

/-- The page built for one image (lines 192-207): uniform scale so the
image fits the page minus a 40-point total margin per axis, centered. -/
def pageFor (page_size : Rat × Rat) (img : Img) : Page :=
  let dims := dimsAfterCompress img
  let img_width : Rat := dims.1
  let img_height : Rat := dims.2
  let page_width := page_size.1
  let page_height := page_size.2
  let scale_ratio := min ((page_width - 40) / img_width) ((page_height - 40) / img_height)
  let new_width := img_width * scale_ratio
  let new_height := img_height * scale_ratio
  { src := img.path
    x := (page_width - new_width) / 2
    y := (page_height - new_height) / 2
    w := new_width
    h := new_height }

/-- Observable side effects of the program, in program order. -/
inductive Effect where
  | send_message (chat_id : Int) (text : String)
  | send_document (chat_id : Int) (path caption : String)
  | edit_message (chat_id : Int) (message_id : Nat) (text : String)
  | download (file_id save_path : String)
  | save_file (path : String)
  | write_pdf (path : String) (pages : List Page)
  | smtp_send (recipients : List String) (subject body attachment_path : String)
  | log_line (line : String)
  | makedirs (path : String)
  | rename (src dst : String)
  deriving Repr, DecidableEq

/-- Whether an effect is a Telegram text message to the operator. -/
def Effect.isSendMessage : Effect → Bool
  | .send_message _ _ => true
  | _ => false

/-- Whether an effect moves a file (the archive step, line 268). -/
def Effect.isRename : Effect → Bool
  | .rename _ _ => true
  | _ => false

/-- Initial progress message of `create_pdf_from_images` (lines 177-180). -/
def progressStartText (site_id : String) (total : Nat) : String :=
  "📊 <b>Progress for Site " ++ site_id ++
    "</b>\n\n🔄 Compressing images...\nProgress: 0/" ++ toString total

/-- Periodic progress update (lines 186-189). -/
def progressUpdateText (site_id : String) (i total : Nat) : String :=
  "📊 <b>Progress for Site " ++ site_id ++
    "</b>\n\n🔄 Creating PDF pages...\nProgress: " ++ toString i ++ "/" ++ toString total

/-- The compression pass of `create_pdf_from_images` (lines 183-189):
for each image (1-based index `i`) run `compress_image`, which overwrites
the file exactly when it reports a save, and every fifth (or last) image
edit the progress message. -/
def compressLoop (chat_id : Int) (message_id : Nat) (site_id : String) (total : Nat) :
    Nat → List Img → List Effect
  | _, [] => []
  | i, img :: rest =>
      (if (compress_image img.decodeOk img.sizeOverMax img.w img.h MAX_IMAGE_DIMENSION).2
        then [Effect.save_file img.path] else []) ++
      (if i % 5 = 0 ∨ i = total
        then [Effect.edit_message chat_id message_id (progressUpdateText site_id i total)]
        else []) ++
      compressLoop chat_id message_id site_id total (i + 1) rest

/-- The page-building pass of `create_pdf_from_images` (lines 191-207):
one page appended per image in input order; `Image.open` failure raises
(aborting the whole PDF). -/
def pageLoop (page_size : Rat × Rat) : List Img → Except Unit (List Page)
  | [] => .ok []
  | img :: rest =>
      if img.openOk then (pageLoop page_size rest).map (fun l => pageFor page_size img :: l)
      else .error ()

/-- `create_pdf_from_images(image_files, output_pdf_path, bot, chat_id,
site_id, page_size=A4)` (lines 174-213).  `message_id` is the id of the
progress message returned by the transport (an oracle).  Returns the
effects emitted and, unless the page loop raised, the list of assembled
pages written to `output_pdf_path`. -/
def create_pdf_from_images (image_files : List Img) (output_pdf_path : String)
    (chat_id : Int) (site_id : String) (message_id : Nat) :
    List Effect × Except Unit (List Page) :=
  let total := image_files.length
  let e0 := Effect.send_message chat_id (progressStartText site_id total)
  let ce := compressLoop chat_id message_id site_id total 1 image_files
  match pageLoop A4 image_files with
  | .error u => (e0 :: ce, .error u)
  | .ok pages => (e0 :: ce ++ [Effect.write_pdf output_pdf_path pages], .ok pages)

lemma pageLoop_all_ok (page_size : Rat × Rat) (imgs : List Img)
    (hok : imgs.all (fun i => i.openOk) = true) :
    pageLoop page_size imgs = .ok (imgs.map (pageFor page_size)) := by
  induction imgs with
  | nil => rfl
  | cons img rest ih =>
      simp only [List.all_cons, Bool.and_eq_true] at hok
      simp [pageLoop, hok.1, ih hok.2, Except.map]

/-- C1: For every non-empty ordered list of image paths processed by a
completion command (all of which the PDF library can open), the assembled
document has exactly one page per input image, and the pages appear in
input order: page `i` is built from input image `i`. -/
theorem create_pdf_one_page_per_image (image_files : List Img)
    (output_pdf_path : String) (chat_id : Int) (site_id : String) (message_id : Nat)
    (hne : image_files ≠ [])
    (hok : image_files.all (fun i => i.openOk) = true) :
    ∃ pages,
      (create_pdf_from_images image_files output_pdf_path chat_id site_id message_id).2 =
        .ok pages ∧
      pages.length = image_files.length ∧
      ∀ i : Nat, pages[i]?.map Page.src = image_files[i]?.map Img.path := by
  refine ⟨image_files.map (pageFor A4), ?_, by simp, ?_⟩
  · unfold create_pdf_from_images
    rw [pageLoop_all_ok A4 image_files hok]
  · intro i
    rw [List.getElem?_map]
    cases himg : image_files[i]? with
    | none => rfl
    | some img => rfl

/-- C1 witness: a two-image batch yields a two-page document in order. -/
theorem create_pdf_one_page_per_image_witness :
    ([⟨"a.jpg", 100, 200, false, true, true, true⟩,
      ⟨"b.jpg", 300, 50, false, true, true, true⟩] ≠ ([] : List Img)) ∧
    (([⟨"a.jpg", 100, 200, false, true, true, true⟩,
      ⟨"b.jpg", 300, 50, false, true, true, true⟩] : List Img).all
        (fun i => i.openOk) = true) ∧
    (∃ pages,
      (create_pdf_from_images
          [⟨"a.jpg", 100, 200, false, true, true, true⟩,
            ⟨"b.jpg", 300, 50, false, true, true, true⟩]
          "./pdfs/777.pdf" 42 "777" 9).2 = .ok pages ∧
      pages.length =
        ([⟨"a.jpg", 100, 200, false, true, true, true⟩,
          ⟨"b.jpg", 300, 50, false, true, true, true⟩] : List Img).length ∧
      ∀ i : Nat, pages[i]?.map Page.src =
        ([⟨"a.jpg", 100, 200, false, true, true, true⟩,
          ⟨"b.jpg", 300, 50, false, true, true, true⟩] : List Img)[i]?.map Img.path) :=
  ⟨by decide, by decide,
    create_pdf_one_page_per_image _ "./pdfs/777.pdf" 42 "777" 9 (by decide) (by decide)⟩

/-- Initial message of `process_site` (line 251). -/
def startingText (site_id : String) (photo_count : Nat) : String :=
  "🚀 <b>Starting Processing</b>\n\n📋 Site ID: " ++ site_id ++
    "\n📸 Total Photos: " ++ toString photo_count ++ "\n\nPlease wait..."

/-- Success edit of the progress message (lines 258-261); `pdf_size` is the
formatted `pdf_size_mb` value (an oracle string). -/
def completedText (site_id : String) (photo_count : Nat) (pdf_size : String) : String :=
  "📊 <b>Progress for Site " ++ site_id ++ "</b>\n\n✅ PDF Created: " ++
    toString photo_count ++ " pages (" ++ pdf_size ++ "MB)\n✅ Email Sent: " ++
    toString RECIPIENTS.length ++ " recipients\n\n<b>COMPLETED!</b>"

/-- `log_submission(site_id, photo_count, status)` (lines 242-245): the line
appended to `LOG_FILE`.  `timestamp` is the formatted current time (oracle). -/
def log_submission (timestamp site_id : String) (photo_count : Nat) (status : String) :
    String :=
  timestamp ++ " | Site ID: " ++ site_id ++ " | Photos: " ++ toString photo_count ++
    " | Status: " ++ status ++ "\n"

def basenameAux : List Char → List Char → List Char
  | [], acc => acc.reverse
  | c :: cs, acc => if c = '/' then basenameAux cs [] else basenameAux cs (c :: acc)

/-- `os.path.basename` on the slash-joined paths this program builds. -/
def basename (s : String) : String := String.mk (basenameAux s.data [])

/-- The external facts about the photo file a handler invocation downloads
(pixel dimensions, size/decode/open/exists observations). -/
structure ImgFacts where
  w : Nat
  h : Nat
  sizeOverMax : Bool
  decodeOk : Bool
  openOk : Bool
  onDisk : Bool
  deriving Repr, DecidableEq

/-- The `Img` record for a downloaded file at a given path. -/
def mkImg (f : ImgFacts) (path : String) : Img :=
  ⟨path, f.w, f.h, f.sizeOverMax, f.decodeOk, f.openOk, f.onDisk⟩

/-- External facts one handler invocation depends on: `t` is
`int(time.time())` at photo receipt, `downloadOk` the `download_photo`
result, `photoFacts` the facts about the downloaded file, `message_id` the
progress-message id returned by the transport, `pdf_size` the formatted
size of the written PDF, `timestamp` the formatted time used by
`log_submission`, and `emailOk` the `send_email_with_attachment` result. -/
structure Oracle where
  t : Nat
  downloadOk : Bool
  photoFacts : ImgFacts
  message_id : Nat
  pdf_size : String
  timestamp : String
  emailOk : Bool
  deriving Repr, DecidableEq

/-- `process_site(bot, chat_id, site_id, photo_files)` (lines 249-273):
announce, build the PDF, mail it, and on success notify/archive or on mail
failure notify and log an `Email Error` line.  `.error ()` means an
exception escaped (only the PDF build can raise here:
`send_email_with_attachment` catches its own exceptions and returns a
boolean, modelled by `orc.emailOk`; its internal `logging.error` goes to
`bot.log`, not to `LOG_FILE`). -/
def process_site (orc : Oracle) (chat_id : Int) (site_id : String)
    (photo_files : List Img) : List Effect × Except Unit Bool :=
  let photo_count := photo_files.length
  let e0 := Effect.send_message chat_id (startingText site_id photo_count)
  let pdf_path := PDF_OUTPUT_DIR ++ "/" ++ site_id ++ ".pdf"
  let r := create_pdf_from_images photo_files pdf_path chat_id site_id orc.message_id
  match r.2 with
  | .error u => (e0 :: r.1, .error u)
  | .ok _ =>
      let subject := EMAIL_SUBJECT site_id
      let body := EMAIL_BODY site_id
      let mailAttempt := Effect.smtp_send RECIPIENTS subject body pdf_path
      if orc.emailOk then
        let archive_path := ARCHIVE_DIR ++ "/" ++ site_id
        (e0 :: r.1 ++
          [mailAttempt,
            Effect.edit_message chat_id orc.message_id
              (completedText site_id photo_count orc.pdf_size),
            Effect.send_document chat_id pdf_path ("PDF for Site " ++ site_id),
            Effect.log_line (log_submission orc.timestamp site_id photo_count "Success"),
            Effect.makedirs archive_path] ++
          photo_files.filterMap (fun p =>
            if p.onDisk then
              some (Effect.rename p.path (archive_path ++ "/" ++ basename p.path))
            else none),
          .ok true)
      else
        (e0 :: r.1 ++
          [mailAttempt,
            Effect.send_message chat_id "❌ Error sending email. Check bot.log for details.",
            Effect.log_line (log_submission orc.timestamp site_id photo_count "Email Error")],
          .ok false)

def pySplitAux : List Char → List Char → List String
  | [], acc => if acc.isEmpty then [] else [String.mk acc.reverse]
  | c :: cs, acc =>
      if c.isWhitespace then
        if acc.isEmpty then pySplitAux cs []
        else String.mk acc.reverse :: pySplitAux cs []
      else pySplitAux cs (c :: acc)

/-- Python `str.split()` with no separator: split on whitespace runs,
dropping empty fields. -/
def pySplit (s : String) : List String := pySplitAux s.data []

/-- Python `str.startswith(p)`. -/
def pyStartsWith (s p : String) : Bool := p.data.isPrefixOf s.data

/-- The payload of an inbound Telegram message, as inspected by `main`:
a photo (highest-resolution variant, its `file_id`), text, or anything
else (skipped by both `if` tests). -/
inductive Payload where
  | photo (file_id : String)
  | text (s : String)
  | other
  deriving Repr, DecidableEq

structure Msg where
  chat_id : Int
  payload : Payload
  deriving Repr, DecidableEq

/-- Whether processing the message raised an exception that escaped to the
outer `try` of the event loop (line 309), which logs it and sleeps. -/
inductive Outcome where
  | ok
  | raised
  deriving Repr, DecidableEq

/-- One iteration of the per-message body of `main`'s event loop
(lines 288-308) as a function of the pending batch: identity gate, photo
intake, and the `/siteid` completion command (which copies the batch, runs
`process_site` on the copy, and clears the batch only after `process_site`
returns).  The polling-cursor update (line 287) and updates without a
`message` key are transport bookkeeping outside this state. -/
def handle_message (orc : Oracle) (your_chat_id : String) (pending : List Img)
    (m : Msg) : List Img × List Effect × Outcome :=
  if toString m.chat_id ≠ your_chat_id then
    (pending, [Effect.send_message m.chat_id "⛔ Unauthorized access."], .ok)
  else
    match m.payload with
    | .photo file_id =>
        let filename := "photo_" ++ toString orc.t ++ "_" ++ toString pending.length ++ ".jpg"
        let filepath := DOWNLOAD_DIR ++ "/" ++ filename
        if orc.downloadOk then
          (pending ++ [mkImg orc.photoFacts filepath], [Effect.download file_id filepath], .ok)
        else
          (pending, [Effect.download file_id filepath], .ok)
    | .text s =>
        if pyStartsWith s "/siteid" then
          match (pySplit s)[1]? with
          | none => (pending, [], .raised)
          | some site_id =>
              if pending = [] then
                (pending, [Effect.send_message m.chat_id "❌ No photos received yet!"], .ok)
              else
                match (process_site orc m.chat_id site_id pending).2 with
                | .error _ => (pending, (process_site orc m.chat_id site_id pending).1, .raised)
                | .ok _ => ([], (process_site orc m.chat_id site_id pending).1, .ok)
        else (pending, [], .ok)
    | .other => (pending, [], .ok)

lemma process_site_returns (orc : Oracle) (c : Int) (sid : String) (photos : List Img)
    (hok : photos.all (fun i => i.openOk) = true) :
    (process_site orc c sid photos).2 = .ok orc.emailOk := by
  have hpl := pageLoop_all_ok A4 photos hok
  cases hE : orc.emailOk with
  | true => simp [process_site, create_pdf_from_images, hpl, hE]
  | false => simp [process_site, create_pdf_from_images, hpl, hE]

lemma compressLoop_no_rename (c : Int) (mid : Nat) (sid : String) (total : Nat) :
    ∀ (i : Nat) (imgs : List Img) (e : Effect),
      e ∈ compressLoop c mid sid total i imgs → e.isRename = false := by
  intro i imgs
  induction imgs generalizing i with
  | nil =>
      intro e he
      simp [compressLoop] at he
  | cons img rest ih =>
      intro e he
      simp only [compressLoop, List.mem_append] at he
      rcases he with (h1 | h2) | h3
      · by_cases hc : (compress_image img.decodeOk img.sizeOverMax img.w img.h
            MAX_IMAGE_DIMENSION).2
        · simp only [hc, if_true, List.mem_singleton] at h1
          subst h1
          rfl
        · simp [hc] at h1
      · by_cases hc : (i % 5 = 0 ∨ i = total)
        · simp only [hc, if_true, List.mem_singleton] at h2
          subst h2
          rfl
        · simp [hc] at h2
      · exact ih (i + 1) e h3

/-- A concrete oracle used by witnesses: download succeeds, the photo is a
decodable 800 x 600 file, and mail delivery succeeds. -/
def orcW : Oracle :=
  ⟨1700000000, true, ⟨800, 600, false, true, true, true⟩, 7, "1.23",
    "01-Jan-2026 10:00", true⟩

/-- Same facts as `orcW` but mail delivery fails. -/
def orcWEmailFail : Oracle :=
  ⟨1700000000, true, ⟨800, 600, false, true, true, true⟩, 7, "1.23",
    "01-Jan-2026 10:00", false⟩

/-- A pending photo whose file the PDF page loop can open. -/
def imgOk : Img := ⟨"./telegram_photos/photo_1700000000_0.jpg", 800, 600, false, true, true, true⟩

/-- A pending photo whose file `Image.open` fails on in the PDF page loop,
so `create_pdf_from_images` raises inside `process_site`. -/
def imgBadOpen : Img :=
  ⟨"./telegram_photos/photo_1700000000_0.jpg", 800, 600, false, true, false, true⟩

/-- C2 counterexample: with a non-empty batch whose single photo makes the
PDF build raise, the `/siteid` command leaves `pending_photos` non-empty —
`pending_photos.clear()` on line 308 sits after `process_site` and is
skipped when the exception escapes to the outer event-loop handler, so the
batch is not cleared in every outcome. -/
theorem siteid_pipeline_exception_keeps_batch :
    (handle_message orcW "5" [imgBadOpen] ⟨5, .text "/siteid 123"⟩).1 = [imgBadOpen] ∧
    (handle_message orcW "5" [imgBadOpen] ⟨5, .text "/siteid 123"⟩).2.2 = .raised := by
  constructor
  · rfl
  · rfl

/-- C2 amended: after a completion command with a non-empty batch,
PendingBatch is cleared only after `process_site` returns normally — and
then regardless of mail success or failure (the oracle's `emailOk` is
arbitrary here); if the pipeline raises an exception, the clear is skipped
and PendingBatch keeps its previous contents. -/
theorem siteid_clears_batch_after_pipeline_return (orc : Oracle) (y : String)
    (c : Int) (s site_id : String) (pending : List Img)
    (hauth : toString c = y)
    (hcmd : pyStartsWith s "/siteid" = true)
    (harg : (pySplit s)[1]? = some site_id)
    (hne : pending ≠ []) :
    (pending.all (fun i => i.openOk) = true →
      (handle_message orc y pending ⟨c, .text s⟩).1 = []) ∧
    ((handle_message orc y pending ⟨c, .text s⟩).2.2 = .raised →
      (handle_message orc y pending ⟨c, .text s⟩).1 = pending) := by
  constructor
  · intro hok
    have h2 := process_site_returns orc c site_id pending hok
    simp [handle_message, hauth, hcmd, harg, hne, h2]
  · intro hr
    cases hres : (process_site orc c site_id pending).2 with
    | error u => simp [handle_message, hauth, hcmd, harg, hne, hres]
    | ok b =>
        have hok' : (handle_message orc y pending ⟨c, .text s⟩).2.2 = .ok := by
          simp [handle_message, hauth, hcmd, harg, hne, hres]
        rw [hok'] at hr
        exact absurd hr (by simp)

/-- C2 amended witness: a one-photo batch is cleared once the pipeline
returns (here with mail succeeding). -/
theorem siteid_clears_batch_after_pipeline_return_witness :
    (toString (5 : Int) = "5" ∧ pyStartsWith "/siteid 123" "/siteid" = true ∧
      (pySplit "/siteid 123")[1]? = some "123" ∧ [imgOk] ≠ ([] : List Img)) ∧
    (([imgOk] : List Img).all (fun i => i.openOk) = true →
      (handle_message orcW "5" [imgOk] ⟨5, .text "/siteid 123"⟩).1 = []) ∧
    ((handle_message orcW "5" [imgOk] ⟨5, .text "/siteid 123"⟩).2.2 = .raised →
      (handle_message orcW "5" [imgOk] ⟨5, .text "/siteid 123"⟩).1 = [imgOk]) :=
  ⟨⟨by decide, by decide, by decide, by decide⟩,
    siteid_clears_batch_after_pipeline_return orcW "5" 5 "/siteid 123" "123" [imgOk]
      (by decide) (by decide) (by decide) (by decide)⟩

/-- C3 counterexample: an accepted, successfully downloaded photo from the
authorized identity is appended to the batch, but the handler sends no
Telegram message at all — there is no acknowledgement with a running
count. -/
theorem photo_event_sends_no_acknowledgement :
    (handle_message orcW "5" [] ⟨5, .photo "fileA"⟩).2.1.filter Effect.isSendMessage = [] ∧
    (handle_message orcW "5" [] ⟨5, .photo "fileA"⟩).1.length = 1 := by
  constructor
  · rfl
  · rfl

/-- C3 amended: for an accepted photo from the authorized identity whose
download succeeds, the handler stores the binary under the deterministic
timestamp-derived path
`./telegram_photos/photo_{int(time.time())}_{len(pending)}.jpg` and appends
that path to PendingBatch — but it sends no acknowledgement to the
operator: the only effect is the download itself. -/
theorem photo_appended_no_ack (orc : Oracle) (y : String) (c : Int)
    (fid : String) (pending : List Img)
    (hauth : toString c = y)
    (hdl : orc.downloadOk = true) :
    handle_message orc y pending ⟨c, .photo fid⟩ =
      (pending ++ [mkImg orc.photoFacts
          (DOWNLOAD_DIR ++ "/" ++ ("photo_" ++ toString orc.t ++ "_" ++
            toString pending.length ++ ".jpg"))],
        [Effect.download fid (DOWNLOAD_DIR ++ "/" ++ ("photo_" ++ toString orc.t ++ "_" ++
            toString pending.length ++ ".jpg"))],
        .ok) := by
  simp [handle_message, hauth, hdl]

/-- C3 amended witness: one downloaded photo lands at
`./telegram_photos/photo_1700000000_0.jpg`. -/
theorem photo_appended_no_ack_witness :
    (toString (5 : Int) = "5" ∧ orcW.downloadOk = true) ∧
    handle_message orcW "5" [] ⟨5, .photo "fileA"⟩ =
      ([mkImg orcW.photoFacts
          (DOWNLOAD_DIR ++ "/" ++ ("photo_" ++ toString orcW.t ++ "_" ++
            toString ([] : List Img).length ++ ".jpg"))],
        [Effect.download "fileA" (DOWNLOAD_DIR ++ "/" ++ ("photo_" ++ toString orcW.t ++ "_" ++
            toString ([] : List Img).length ++ ".jpg"))],
        .ok) :=
  ⟨⟨by decide, by decide⟩,
    photo_appended_no_ack orcW "5" 5 "fileA" [] (by decide) (by decide)⟩

/-- C4: an inbound message whose sender identity differs from the
configured authorized identity gets exactly one rejection notice and
nothing else: PendingBatch is returned unchanged, the only effect is the
rejection message (so no download, document, mail, log or archive side
effect), and no exception is raised.  (The polling-cursor advance on line
287 happens for every update before the identity test and is transport
bookkeeping, not handler state.) -/
theorem unauthorized_rejection_only (orc : Oracle) (your_chat_id : String)
    (pending : List Img) (m : Msg)
    (hne : toString m.chat_id ≠ your_chat_id) :
    handle_message orc your_chat_id pending m =
      (pending, [Effect.send_message m.chat_id "⛔ Unauthorized access."], .ok) := by
  unfold handle_message
  rw [if_pos hne]

/-- C4 witness: chat 7 against authorized identity "42". -/
theorem unauthorized_rejection_only_witness :
    (toString (7 : Int) ≠ "42") ∧
    handle_message orcW "42" [imgOk] ⟨7, .photo "fileA"⟩ =
      ([imgOk], [Effect.send_message 7 "⛔ Unauthorized access."], .ok) :=
  ⟨by decide,
    unauthorized_rejection_only orcW "42" [imgOk] ⟨7, .photo "fileA"⟩ (by decide)⟩

/-- C5: a completion command (recognized prefix, with its required
argument) received while PendingBatch is empty yields exactly the error
notice and nothing else: the batch stays empty, the only effect is the
error message (so no document and no mail), and no exception is raised. -/
theorem empty_batch_command_error_only (orc : Oracle) (y : String) (c : Int)
    (s site_id : String)
    (hauth : toString c = y)
    (hcmd : pyStartsWith s "/siteid" = true)
    (harg : (pySplit s)[1]? = some site_id) :
    handle_message orc y [] ⟨c, .text s⟩ =
      ([], [Effect.send_message c "❌ No photos received yet!"], .ok) := by
  simp [handle_message, hauth, hcmd, harg]

/-- C5 witness: `/siteid 999` with an empty batch. -/
theorem empty_batch_command_error_only_witness :
    (toString (5 : Int) = "5" ∧ pyStartsWith "/siteid 999" "/siteid" = true ∧
      (pySplit "/siteid 999")[1]? = some "999") ∧
    handle_message orcW "5" [] ⟨5, .text "/siteid 999"⟩ =
      ([], [Effect.send_message 5 "❌ No photos received yet!"], .ok) :=
  ⟨⟨by decide, by decide, by decide⟩,
    empty_batch_command_error_only orcW "5" 5 "/siteid 999" "999"
      (by decide) (by decide) (by decide)⟩

/-- C6: when mail delivery fails for a processed batch, `process_site`
returns `False` (no exception), its effects include the operator failure
notice and an appended `LOG_FILE` line whose status is `Email Error`, and
no effect moves a file: the attachment and the downloaded photos are left
on disk (archiving happens only in the success branch, and the program
contains no file-deletion call at all). -/
theorem email_failure_notice_logged_no_archive (orc : Oracle) (c : Int)
    (sid : String) (photos : List Img)
    (hok : photos.all (fun i => i.openOk) = true)
    (hmail : orc.emailOk = false) :
    (process_site orc c sid photos).2 = .ok false ∧
    Effect.send_message c "❌ Error sending email. Check bot.log for details."
      ∈ (process_site orc c sid photos).1 ∧
    Effect.log_line (log_submission orc.timestamp sid photos.length "Email Error")
      ∈ (process_site orc c sid photos).1 ∧
    ∀ e ∈ (process_site orc c sid photos).1, e.isRename = false := by
  have hpl := pageLoop_all_ok A4 photos hok
  refine ⟨?_, ?_, ?_, ?_⟩
  · simp [process_site, create_pdf_from_images, hpl, hmail]
  · simp [process_site, create_pdf_from_images, hpl, hmail]
  · simp [process_site, create_pdf_from_images, hpl, hmail]
  · intro e he
    simp only [process_site, create_pdf_from_images, hpl, hmail, Bool.false_eq_true,
      if_false, List.mem_cons, List.mem_append, List.mem_singleton, List.not_mem_nil,
      or_false, false_or, or_assoc] at he
    rcases he with h | h | h | h | h | h | h <;>
      first
        | (subst h; rfl)
        | exact compressLoop_no_rename c orc.message_id sid photos.length 1 photos e h

/-- C6 witness: a one-photo batch with failing mail delivery. -/
theorem email_failure_notice_logged_no_archive_witness :
    (([imgOk] : List Img).all (fun i => i.openOk) = true ∧
      orcWEmailFail.emailOk = false) ∧
    ((process_site orcWEmailFail 5 "123" [imgOk]).2 = .ok false ∧
      Effect.send_message 5 "❌ Error sending email. Check bot.log for details."
        ∈ (process_site orcWEmailFail 5 "123" [imgOk]).1 ∧
      Effect.log_line (log_submission orcWEmailFail.timestamp "123"
          ([imgOk] : List Img).length "Email Error")
        ∈ (process_site orcWEmailFail 5 "123" [imgOk]).1 ∧
      ∀ e ∈ (process_site orcWEmailFail 5 "123" [imgOk]).1, e.isRename = false) :=
  ⟨⟨by decide, by decide⟩,
    email_failure_notice_logged_no_archive orcWEmailFail 5 "123" [imgOk]
      (by decide) (by decide)⟩

/-- C10: a completion command whose text contains no argument after the
command prefix (`/siteid` alone, or with only trailing whitespace) raises
an `IndexError` at `message['text'].split()[1]` — before the empty-batch
check — so the handler emits no message at all (in particular no error
notice), PendingBatch is unchanged, and the exception escapes to the outer
event-loop `except`, which merely logs it and sleeps. -/
theorem siteid_without_argument_raises (orc : Oracle) (y : String) (c : Int)
    (s : String) (pending : List Img)
    (hauth : toString c = y)
    (hcmd : pyStartsWith s "/siteid" = true)
    (hnoarg : (pySplit s)[1]? = none) :
    handle_message orc y pending ⟨c, .text s⟩ = (pending, [], .raised) := by
  simp [handle_message, hauth, hcmd, hnoarg]

/-- C10 witness: the bare text `/siteid` with a non-empty batch (the same
holds for an empty batch, where no error notice is produced either). -/
theorem siteid_without_argument_raises_witness :
    (toString (5 : Int) = "5" ∧ pyStartsWith "/siteid" "/siteid" = true ∧
      (pySplit "/siteid")[1]? = none) ∧
    handle_message orcW "5" [imgOk] ⟨5, .text "/siteid"⟩ = ([imgOk], [], .raised) :=
  ⟨⟨by decide, by decide, by decide⟩,
    siteid_without_argument_raises orcW "5" 5 "/siteid" [imgOk]
      (by decide) (by decide) (by decide)⟩
